import Mathlib

/-!
Shallow embedding of the Event-management API core
(app/models, app/schemas, app/services) and verification of its
specified properties.  Persisted rows become Lean structures, the
database becomes an explicit in-memory state, each service function
becomes a pure function from state to `Except` of a classified error
and a successor state.  A request that raises aborts before commit, so
an erroneous call leaves the state unchanged; `postState` makes that
reading explicit.
-/

namespace EventApi

/-- Status enumeration of an event (app/models/event.py, EventStatus). -/
inductive EventStatus where
  | scheduled
  | ongoing
  | completed
  | canceled
deriving DecidableEq, Repr

/-- Persisted event row (app/models/event.py, Event).  Times are modelled
as integers ordered like the datetimes of the source. -/
structure Event where
  event_id : Nat
  name : String
  description : Option String
  start_time : Int
  end_time : Int
  location : String
  max_attendees : Nat
  status : EventStatus
deriving DecidableEq, Repr

/-- Persisted attendee row (app/models/attendee.py, Attendee). -/
structure Attendee where
  attendee_id : Nat
  first_name : String
  last_name : String
  email : String
  phone_number : Option String
  event_id : Nat
  check_in_status : Bool
deriving DecidableEq, Repr

/-- In-memory database state: the two tables the claims touch, plus the
autoincrement counter that yields primary keys for new attendee rows. -/
structure DB where
  events : List Event
  attendees : List Attendee
  next_attendee_id : Nat
deriving DecidableEq, Repr

/-- Candidate record of a batch (app/schemas/attendee.py, AttendeeCsv):
the shape shared by the direct JSON batch and the parsed CSV batch. -/
structure AttendeeCsv where
  first_name : String
  last_name : String
  email : String
  phone_number : Option String
deriving DecidableEq, Repr

/-- Payload of single-attendee creation (app/schemas/attendee.py,
AttendeeCreate). -/
structure AttendeeCreate where
  first_name : String
  last_name : String
  email : String
  phone_number : Option String
  event_id : Nat
deriving DecidableEq, Repr

/-- Sparse update payload (app/schemas/attendee.py, AttendeeUpdate).
A field is `none` when it is absent from the request, mirroring the
exclude_unset extraction of the source. -/
structure AttendeeUpdate where
  first_name : Option String
  last_name : Option String
  email : Option String
  phone_number : Option String
  check_in_status : Option Bool
deriving DecidableEq, Repr

/-- Payload of the direct JSON bulk creation (app/schemas/attendee.py,
AttendeeBulkCreate). -/
structure AttendeeBulkCreate where
  event_id : Nat
  attendees : List AttendeeCsv
deriving DecidableEq, Repr

/-- Sparse update payload for events (app/schemas/event.py, EventUpdate). -/
structure EventUpdate where
  name : Option String
  description : Option String
  start_time : Option Int
  end_time : Option Int
  location : Option String
  max_attendees : Option Nat
  status : Option EventStatus
deriving DecidableEq, Repr

/-- Classified failures raised by the services (HTTPException sites of
app/services).  Each constructor carries exactly the data interpolated
into the detail string at the corresponding raise site. -/
inductive SvcError where
  | eventNotFound (event_id : Nat)
  | attendeeNotFound (attendee_id : Nat)
  | capacityReached (max_attendees : Nat)
  | emailAlreadyRegistered (email : String)
  | capacityExceeded (requested : Nat) (max_attendees : Nat) (current : Nat)
  | duplicateEmails (emails : List String)
  | existingEmails (emails : List String)
  | alreadyCheckedIn (attendee_id : Nat)
deriving DecidableEq, Repr

/-- Result payload of the two bulk-registration entry points. -/
structure BulkCreateResult where
  total_created : Nat
  attendee_ids : List Nat
deriving DecidableEq, Repr

/-- Result payload of bulk check-in. -/
structure BulkCheckInResult where
  total : Nat
  found : Nat
  missing : List Nat
  already_checked_in : List Nat
  newly_checked_in : List Nat
deriving DecidableEq, Repr

/-- Result counters of the event status sweep. -/
structure SweepResult where
  ongoing : Nat
  completed : Nat
deriving DecidableEq, Repr

deriving instance DecidableEq for Except

/-- State after a call: an aborted request rolls back, a successful one
commits its successor state. -/
def postState (db : DB) (r : Except SvcError (DB × α)) : DB :=
  match r with
  | .error _ => db
  | .ok (db2, _) => db2

/-- Lookup of an event by primary key (event_service.get_event). -/
def get_event (db : DB) (event_id : Nat) : Option Event :=
  db.events.find? (fun e => e.event_id == event_id)

/-- Lookup of an attendee by primary key (attendee_service.get_attendee). -/
def get_attendee (db : DB) (attendee_id : Nat) : Option Attendee :=
  db.attendees.find? (fun a => a.attendee_id == attendee_id)

/-- Count of attendees registered for an event: the select(func.count())
query filtered on event_id used throughout attendee_service. -/
def countAttendees (db : DB) (event_id : Nat) : Nat :=
  (db.attendees.filter (fun a => a.event_id == event_id)).length

/-- Single-attendee registration (attendee_service.create_attendee):
event lookup, capacity check against the current count, same-event
duplicate-email check, then insertion with check_in_status false. -/
def create_attendee (db : DB) (d : AttendeeCreate) : Except SvcError (DB × Attendee) :=
  match get_event db d.event_id with
  | none => .error (.eventNotFound d.event_id)
  | some event =>
    let attendee_count := countAttendees db event.event_id
    if attendee_count ≥ event.max_attendees then
      .error (.capacityReached event.max_attendees)
    else
      match db.attendees.find? (fun a => a.email == d.email && a.event_id == event.event_id) with
      | some _ => .error (.emailAlreadyRegistered d.email)
      | none =>
        let attendee : Attendee :=
          { attendee_id := db.next_attendee_id
            first_name := d.first_name
            last_name := d.last_name
            email := d.email
            phone_number := d.phone_number
            event_id := d.event_id
            check_in_status := false }
        .ok ({ db with
                attendees := db.attendees ++ [attendee]
                next_attendee_id := db.next_attendee_id + 1 }, attendee)

/-- Field application of a sparse attendee update: exactly the provided
fields are written onto the row (the exclude_unset setattr loop). -/
def applyAttendeeUpdate (u : AttendeeUpdate) (a : Attendee) : Attendee :=
  { a with
    first_name := u.first_name.getD a.first_name
    last_name := u.last_name.getD a.last_name
    email := u.email.getD a.email
    phone_number := match u.phone_number with
      | some p => some p
      | none => a.phone_number
    check_in_status := u.check_in_status.getD a.check_in_status }

/-- Attendee update (attendee_service.update_attendee): when a new and
different email is supplied, it must not belong to another attendee of
the same event; then the provided fields are applied. -/
def update_attendee (db : DB) (attendee_id : Nat) (u : AttendeeUpdate) :
    Except SvcError (DB × Attendee) :=
  match get_attendee db attendee_id with
  | none => .error (.attendeeNotFound attendee_id)
  | some a =>
    let emailConflict : Bool :=
      match u.email with
      | none => false
      | some e =>
        e != a.email &&
          db.attendees.any (fun b =>
            b.email == e && b.event_id == a.event_id && b.attendee_id != attendee_id)
    if emailConflict then
      .error (.emailAlreadyRegistered (u.email.getD a.email))
    else
      .ok ({ db with
              attendees := db.attendees.map (fun b =>
                if b.attendee_id == attendee_id then applyAttendeeUpdate u b else b) },
           applyAttendeeUpdate u a)

/-- Single-attendee check-in (attendee_service.check_in_attendee): a
second check-in of the same row is a conflict, a first one flips the
flag to true. -/
def check_in_attendee (db : DB) (attendee_id : Nat) : Except SvcError (DB × Attendee) :=
  match get_attendee db attendee_id with
  | none => .error (.attendeeNotFound attendee_id)
  | some a =>
    if a.check_in_status then
      .error (.alreadyCheckedIn attendee_id)
    else
      .ok ({ db with
              attendees := db.attendees.map (fun b =>
                if b.attendee_id == attendee_id then { b with check_in_status := true } else b) },
           { a with check_in_status := true })

/-- Bulk check-in (attendee_service.bulk_check_in): rows of the event
whose ids occur in the request are loaded, partitioned on their current
flag, and the unchecked ones are flipped; ids with no matching row under
this event are reported missing.  The call never rejects the batch. -/
def bulk_check_in (db : DB) (event_id : Nat) (attendee_ids : List Nat) :
    Except SvcError (DB × BulkCheckInResult) :=
  match get_event db event_id with
  | none => .error (.eventNotFound event_id)
  | some _ =>
    let attendees := db.attendees.filter (fun a =>
      a.event_id == event_id && attendee_ids.contains a.attendee_id)
    let found_ids := attendees.map (fun a => a.attendee_id)
    let missing_ids := attendee_ids.filter (fun i => !found_ids.contains i)
    let already_checked_in := (attendees.filter (fun a => a.check_in_status)).map
      (fun a => a.attendee_id)
    let newly_checked_in := (attendees.filter (fun a => !a.check_in_status)).map
      (fun a => a.attendee_id)
    .ok ({ db with
            attendees := db.attendees.map (fun a =>
              if a.event_id == event_id && attendee_ids.contains a.attendee_id &&
                  !a.check_in_status then
                { a with check_in_status := true }
              else a) },
         { total := attendee_ids.length
           found := attendees.length
           missing := missing_ids
           already_checked_in := already_checked_in
           newly_checked_in := newly_checked_in })

/-- Intra-batch duplicate detection shared by both bulk entry points:
the emails that occur more than once among the candidates, one
representative each (the set comprehension over the email list). -/
def duplicateEmailsOf (emails : List String) : List String :=
  emails.dedup.filter (fun e => emails.count e > 1)

/-- Cross-batch duplicate detection shared by both bulk entry points:
emails of existing attendees of the event that also occur among the
candidates (the select of Attendee.email filtered on event and the
candidate email list). -/
def existingEmailsOf (db : DB) (event_id : Nat) (emails : List String) : List String :=
  (db.attendees.filter (fun a =>
    a.event_id == event_id && emails.contains a.email)).map (fun a => a.email)

/-- Construction of the new rows of an admitted batch, with primary keys
assigned sequentially by the autoincrement counter. -/
def buildAttendees (rows : List AttendeeCsv) (event_id : Nat) (nextId : Nat) : List Attendee :=
  match rows with
  | [] => []
  | r :: rest =>
    { attendee_id := nextId
      first_name := r.first_name
      last_name := r.last_name
      email := r.email
      phone_number := r.phone_number
      event_id := event_id
      check_in_status := false } :: buildAttendees rest event_id (nextId + 1)

/-- Direct JSON bulk registration (attendee_service.bulk_create_attendees):
capacity check, intra-batch duplicate check, cross-batch duplicate
check, then a single commit inserting every candidate. -/
def bulk_create_attendees (db : DB) (bulk_data : AttendeeBulkCreate) :
    Except SvcError (DB × BulkCreateResult) :=
  let event_id := bulk_data.event_id
  let attendees_data := bulk_data.attendees
  match get_event db event_id with
  | none => .error (.eventNotFound event_id)
  | some event =>
    let current_attendee_count := countAttendees db event_id
    if current_attendee_count + attendees_data.length > event.max_attendees then
      .error (.capacityExceeded attendees_data.length event.max_attendees
        current_attendee_count)
    else
      let emails := attendees_data.map (fun a => a.email)
      let duplicate_emails := duplicateEmailsOf emails
      if duplicate_emails ≠ [] then
        .error (.duplicateEmails (duplicate_emails.take 5))
      else
        let existing_emails := existingEmailsOf db event_id emails
        if existing_emails ≠ [] then
          .error (.existingEmails (existing_emails.take 5))
        else
          let created := buildAttendees attendees_data event_id db.next_attendee_id
          .ok ({ db with
                  attendees := db.attendees ++ created
                  next_attendee_id := db.next_attendee_id + created.length },
               { total_created := created.length
                 attendee_ids := created.map (fun a => a.attendee_id) })

/-- CSV bulk registration after parsing (attendee_service.process_csv_upload
from the capacity check on).  The pandas read and the column checks are
the external tabular parser; `rows` is its output, the same candidate
shape the JSON entry point receives. -/
def process_csv_upload (db : DB) (event_id : Nat) (rows : List AttendeeCsv) :
    Except SvcError (DB × BulkCreateResult) :=
  match get_event db event_id with
  | none => .error (.eventNotFound event_id)
  | some event =>
    let current_attendee_count := countAttendees db event_id
    if current_attendee_count + rows.length > event.max_attendees then
      .error (.capacityExceeded rows.length event.max_attendees current_attendee_count)
    else
      let emails := rows.map (fun a => a.email)
      let duplicate_emails := duplicateEmailsOf emails
      if duplicate_emails ≠ [] then
        .error (.duplicateEmails (duplicate_emails.take 5))
      else
        let existing_emails := existingEmailsOf db event_id emails
        if existing_emails ≠ [] then
          .error (.existingEmails (existing_emails.take 5))
        else
          let created := buildAttendees rows event_id db.next_attendee_id
          .ok ({ db with
                  attendees := db.attendees ++ created
                  next_attendee_id := db.next_attendee_id + created.length },
               { total_created := created.length
                 attendee_ids := created.map (fun a => a.attendee_id) })

/-- Field application of a sparse event update (the exclude_unset setattr
loop of event_service.update_event). -/
def applyEventUpdate (u : EventUpdate) (e : Event) : Event :=
  { e with
    name := u.name.getD e.name
    description := match u.description with
      | some d => some d
      | none => e.description
    start_time := u.start_time.getD e.start_time
    end_time := u.end_time.getD e.end_time
    location := u.location.getD e.location
    max_attendees := u.max_attendees.getD e.max_attendees
    status := u.status.getD e.status }

/-- Event update (event_service.update_event): lookup, then apply the
provided fields.  No other validation is performed by the service. -/
def update_event (db : DB) (event_id : Nat) (u : EventUpdate) :
    Except SvcError (DB × Event) :=
  match get_event db event_id with
  | none => .error (.eventNotFound event_id)
  | some e =>
    .ok ({ db with
            events := db.events.map (fun x =>
              if x.event_id == event_id then applyEventUpdate u x else x) },
         applyEventUpdate u e)

/-- Selection predicate of the first sweep query: scheduled events whose
window contains now (event_service.update_event_statuses). -/
def ongoingCandidate (now : Int) (e : Event) : Bool :=
  e.status == .scheduled && e.start_time ≤ now && e.end_time > now

/-- Selection predicate of the second sweep query: scheduled or ongoing
events already past their end (event_service.update_event_statuses). -/
def completedCandidate (now : Int) (e : Event) : Bool :=
  (e.status == .scheduled || e.status == .ongoing) && e.end_time ≤ now

/-- Effect of the sweep on one row: both mutation loops test membership
of the result sets selected from the state before any write, so the two
conditions are evaluated on the original row. -/
def sweepApply (now : Int) (e : Event) : Event :=
  let e1 := if ongoingCandidate now e then { e with status := EventStatus.ongoing } else e
  if completedCandidate now e then { e1 with status := EventStatus.completed } else e1

/-- The status sweep (event_service.update_event_statuses): both result
sets are selected from the state before any write, then the selected
rows are flipped, first to ongoing and then to completed, and the two
counts are returned. -/
def update_event_statuses (db : DB) (now : Int) : DB × SweepResult :=
  let ongoing_events := db.events.filter (ongoingCandidate now)
  let completed_events := db.events.filter (completedCandidate now)
  ({ db with events := db.events.map (sweepApply now) },
   { ongoing := ongoing_events.length, completed := completed_events.length })

/-- Column constraint declared on the attendee table by the source model:
attendees.email carries unique=True, so emails are unique across the
whole table (app/models/attendee.py line 16). -/
def emailsGloballyUnique (db : DB) : Prop :=
  (db.attendees.map (fun a => a.email)).Nodup

/-- Per-event uniqueness of emails: the (email, event_id) pair is unique
across attendees.  This is the invariant the services enforce. -/
def emailEventPairUnique (db : DB) : Prop :=
  (db.attendees.map (fun a => (a.email, a.event_id))).Nodup

instance : DecidablePred emailsGloballyUnique := fun _ =>
  inferInstanceAs (Decidable (List.Nodup _))

instance : DecidablePred emailEventPairUnique := fun _ =>
  inferInstanceAs (Decidable (List.Nodup _))

/-- Written after the words of the specification, for comparison with
the source-embedded sweep: Scheduled becomes Ongoing when the window
contains now, Scheduled or Ongoing becomes Completed once the end has
passed, Canceled and every other row stay as they are. -/
def sweepSpec (now : Int) (e : Event) : Event :=
  if e.status = EventStatus.scheduled ∧ e.start_time ≤ now ∧ now < e.end_time then
    { e with status := EventStatus.ongoing }
  else if (e.status = EventStatus.scheduled ∨ e.status = EventStatus.ongoing) ∧
      e.end_time ≤ now then
    { e with status := EventStatus.completed }
  else e

/-- Classification of an error as a duplicate-email failure, in either
of its two reported forms. -/
def isDuplicateEmailError : SvcError → Bool
  | .duplicateEmails _ => true
  | .existingEmails _ => true
  | _ => false

/-- A call outcome counts as a duplicate-email rejection when it is an
error of one of the two duplicate forms. -/
def resultDupError (r : Except SvcError (DB × BulkCreateResult)) : Bool :=
  match r with
  | .error e => isDuplicateEmailError e
  | .ok _ => false

/-- Monotonicity of the check-in flag between two states: a row that is
checked in keeps the flag on every row of the later state bearing its
primary key. -/
def checkInMono (db db2 : DB) : Prop :=
  ∀ a ∈ db.attendees, a.check_in_status = true →
    ∀ a2 ∈ db2.attendees, a2.attendee_id = a.attendee_id → a2.check_in_status = true

/-- Concrete candidate row used by witnesses and counterexamples. -/
def rowA : AttendeeCsv :=
  { first_name := "Ann", last_name := "Lee", email := "ann@example.com",
    phone_number := none }

/-- Concrete candidate row with a second distinct email. -/
def rowB : AttendeeCsv :=
  { first_name := "Bob", last_name := "Ray", email := "bob@example.com",
    phone_number := none }

/-- Concrete event of capacity one. -/
def eventOne : Event :=
  { event_id := 1, name := "Launch", description := none, start_time := 0,
    end_time := 10, location := "HQ", max_attendees := 1,
    status := EventStatus.scheduled }

/-- Concrete event of capacity ten. -/
def eventBig : Event := { eventOne with max_attendees := 10 }

/-- Concrete registered attendee of event one, not yet checked in. -/
def attendeeOne : Attendee :=
  { attendee_id := 1, first_name := "Cy", last_name := "Fox",
    email := "cy@example.com", phone_number := none, event_id := 1,
    check_in_status := false }

/-- Concrete state with event one filled to its capacity of one. -/
def dbSmall : DB :=
  { events := [eventOne], attendees := [attendeeOne], next_attendee_id := 2 }

/-- Concrete state with a roomy event and no attendees. -/
def dbBig : DB :=
  { events := [eventBig], attendees := [], next_attendee_id := 1 }

/-- Concrete state with a roomy event and one registered attendee. -/
def dbBigOne : DB :=
  { events := [eventBig], attendees := [attendeeOne], next_attendee_id := 2 }

/-- Concrete single-attendee registration aimed at event one. -/
def createReq : AttendeeCreate :=
  { first_name := "Ann", last_name := "Lee", email := "ann@example.com",
    phone_number := none, event_id := 1 }

/-- Concrete second event of capacity ten. -/
def eventTwo : Event := { eventBig with event_id := 2, name := "Expo" }

/-- Concrete state with two roomy events and one attendee of event one. -/
def dbTwoEvents : DB :=
  { events := [eventBig, eventTwo], attendees := [attendeeOne],
    next_attendee_id := 2 }

/-- Concrete registration reusing the email of attendee one under the
second event. -/
def createSameEmailOtherEvent : AttendeeCreate :=
  { first_name := "Cy", last_name := "Fox", email := "cy@example.com",
    phone_number := none, event_id := 2 }

/-- Concrete checked-in attendee of event one. -/
def attendeeChecked : Attendee := { attendeeOne with check_in_status := true }

/-- Concrete state whose single attendee is already checked in. -/
def dbChecked : DB :=
  { events := [eventBig], attendees := [attendeeChecked], next_attendee_id := 2 }

/-- Concrete sparse update that explicitly clears the check-in flag. -/
def uncheckUpdate : AttendeeUpdate :=
  { first_name := none, last_name := none, email := none, phone_number := none,
    check_in_status := some false }

/-- Concrete event of capacity two. -/
def eventCap2 : Event := { eventOne with max_attendees := 2 }

/-- Concrete second attendee of event one. -/
def attendeeTwo : Attendee :=
  { attendee_id := 2, first_name := "Di", last_name := "Um",
    email := "di@example.com", phone_number := none, event_id := 1,
    check_in_status := false }

/-- Concrete state with event one holding two attendees at capacity two. -/
def dbFullTwo : DB :=
  { events := [eventCap2], attendees := [attendeeOne, attendeeTwo],
    next_attendee_id := 3 }

/-- Concrete sparse event update shrinking the capacity to one. -/
def shrinkUpdate : EventUpdate :=
  { name := none, description := none, start_time := none, end_time := none,
    location := none, max_attendees := some 1, status := none }

/-- Concrete manually canceled event. -/
def eventCanceled : Event := { eventOne with status := EventStatus.canceled }

/-- Concrete state holding a scheduled event and a canceled event. -/
def dbSweepPair : DB :=
  { events := [eventOne, eventCanceled], attendees := [], next_attendee_id := 1 }

/-- Success test of a service call outcome. -/
def resultOk (r : Except SvcError (DB × α)) : Bool :=
  match r with
  | .ok _ => true
  | .error _ => false

/-- Frame property of a sparse event update: every field absent from
the request is unchanged, every field present takes the requested
value, and the primary key never changes. -/
def eventUpdateFrame (u : EventUpdate) (E : Event) : Prop :=
  (applyEventUpdate u E).event_id = E.event_id ∧
  (u.name = none → (applyEventUpdate u E).name = E.name) ∧
  (∀ v, u.name = some v → (applyEventUpdate u E).name = v) ∧
  (u.description = none → (applyEventUpdate u E).description = E.description) ∧
  (∀ v, u.description = some v → (applyEventUpdate u E).description = some v) ∧
  (u.start_time = none → (applyEventUpdate u E).start_time = E.start_time) ∧
  (∀ v, u.start_time = some v → (applyEventUpdate u E).start_time = v) ∧
  (u.end_time = none → (applyEventUpdate u E).end_time = E.end_time) ∧
  (∀ v, u.end_time = some v → (applyEventUpdate u E).end_time = v) ∧
  (u.location = none → (applyEventUpdate u E).location = E.location) ∧
  (∀ v, u.location = some v → (applyEventUpdate u E).location = v) ∧
  (u.max_attendees = none → (applyEventUpdate u E).max_attendees = E.max_attendees) ∧
  (∀ v, u.max_attendees = some v → (applyEventUpdate u E).max_attendees = v) ∧
  (u.status = none → (applyEventUpdate u E).status = E.status) ∧
  (∀ v, u.status = some v → (applyEventUpdate u E).status = v)

/-- Bucket sizes of a bulk check-in outcome: the sum of the three
bucket lengths paired with the reported total. -/
def bulkCheckInSum (r : Except SvcError (DB × BulkCheckInResult)) :
    Option (Nat × Nat) :=
  match r with
  | .ok (_, res) =>
    some (res.newly_checked_in.length + res.already_checked_in.length +
      res.missing.length, res.total)
  | .error _ => none

/-- Pointwise agreement of the embedded sweep effect with the per-event
transition described by the specification. -/
theorem sweepApply_eq_sweepSpec (now : Int) (e : Event) :
    sweepApply now e = sweepSpec now e := by
  cases h : e.status <;>
    by_cases h1 : e.start_time ≤ now <;> by_cases h2 : e.end_time ≤ now <;>
    by_cases h3 : now < e.end_time <;>
    simp [sweepApply, sweepSpec, ongoingCandidate, completedCandidate, h, h1, h2, h3] <;>
    omega

/-- After one sweep at a fixed time, no row satisfies either selection
predicate of a sweep at the same time. -/
theorem sweepApply_stable (now : Int) (e : Event) :
    ongoingCandidate now (sweepApply now e) = false ∧
    completedCandidate now (sweepApply now e) = false := by
  cases h : e.status <;>
    by_cases h1 : e.start_time ≤ now <;> by_cases h2 : e.end_time ≤ now <;>
    by_cases h3 : now < e.end_time <;>
    simp [sweepApply, ongoingCandidate, completedCandidate, h, h1, h2, h3] <;>
    omega

/-- C8: one run of the status sweep at time now transitions exactly the
stale events.  The resulting event table is the pointwise image of the
per-event transition of the specification: Scheduled inside its window
becomes Ongoing, Scheduled or Ongoing past its end becomes Completed,
Canceled rows and all other rows are unchanged, and the attendee table
is untouched. -/
theorem c8_sweep_transitions (db : DB) (now : Int) :
    (update_event_statuses db now).1.events = db.events.map (sweepSpec now) ∧
    (update_event_statuses db now).1.attendees = db.attendees ∧
    (∀ e, e.status = EventStatus.canceled → sweepSpec now e = e) := by
  refine ⟨?_, rfl, ?_⟩
  · exact List.map_congr_left fun e _ => sweepApply_eq_sweepSpec now e
  · intro e he
    simp [sweepSpec, he]

/-- Closed instance of the sweep theorem: a state holding a scheduled
event inside its window and a canceled event, swept at time five. -/
theorem c8_sweep_transitions_witness :
    (update_event_statuses dbSweepPair 5).1.events =
      dbSweepPair.events.map (sweepSpec 5) ∧
    sweepSpec 5 eventCanceled = eventCanceled := by
  have h := c8_sweep_transitions dbSweepPair 5
  exact ⟨h.1, h.2.2 eventCanceled (by decide)⟩

/-- C9: the sweep is idempotent at a fixed time; a second run at the
same time counts zero newly ongoing and zero newly completed events. -/
theorem c9_sweep_idempotent (db : DB) (now : Int) :
    (update_event_statuses (update_event_statuses db now).1 now).2 =
      { ongoing := 0, completed := 0 } := by
  have h1 : ∀ e2 ∈ db.events.map (sweepApply now),
      ¬ (ongoingCandidate now e2 = true) := by
    intro e2 he2
    obtain ⟨e, _, rfl⟩ := List.mem_map.mp he2
    simp [(sweepApply_stable now e).1]
  have h2 : ∀ e2 ∈ db.events.map (sweepApply now),
      ¬ (completedCandidate now e2 = true) := by
    intro e2 he2
    obtain ⟨e, _, rfl⟩ := List.mem_map.mp he2
    simp [(sweepApply_stable now e).2]
  simp only [update_event_statuses, SweepResult.mk.injEq]
  rw [List.filter_eq_nil_iff.mpr h1, List.filter_eq_nil_iff.mpr h2]
  simp

/-- C10: updating an event applies exactly the fields present in the
request and leaves every other field unchanged; the attendee table is
untouched; and no re-validation of capacity occurs, so shrinking
max_attendees of a full event succeeds and leaves the event with more
registered attendees than its new limit. -/
theorem c10_update_event_frame (db : DB) (event_id : Nat) (E : Event) (u : EventUpdate)
    (hE : get_event db event_id = some E) :
    update_event db event_id u =
      .ok ({ db with events := db.events.map (fun x =>
              if x.event_id == event_id then applyEventUpdate u x else x) },
           applyEventUpdate u E) ∧
    eventUpdateFrame u E ∧
    (postState db (update_event db event_id u)).attendees = db.attendees ∧
    (resultOk (update_event dbFullTwo 1 shrinkUpdate) = true ∧
     get_event (postState dbFullTwo (update_event dbFullTwo 1 shrinkUpdate)) 1 =
       some (applyEventUpdate shrinkUpdate eventCap2) ∧
     countAttendees (postState dbFullTwo (update_event dbFullTwo 1 shrinkUpdate)) 1 >
       (applyEventUpdate shrinkUpdate eventCap2).max_attendees) := by
  have hmain : update_event db event_id u =
      .ok ({ db with events := db.events.map (fun x =>
              if x.event_id == event_id then applyEventUpdate u x else x) },
           applyEventUpdate u E) := by
    simp [update_event, hE]
  refine ⟨hmain, ⟨rfl, ?_, ?_, ?_, ?_, ?_, ?_, ?_, ?_, ?_, ?_, ?_, ?_, ?_, ?_⟩,
    by rw [hmain]; rfl, by decide⟩
  all_goals first
    | (intro h; simp [applyEventUpdate, h])
    | (intro v h; simp [applyEventUpdate, h])

/-- Closed instance of the event-update theorem: shrinking the roomy
event is accepted and yields the sparse merge of the request. -/
theorem c10_update_event_frame_witness :
    update_event dbBig 1 shrinkUpdate =
      .ok ({ dbBig with events := dbBig.events.map (fun x =>
              if x.event_id == 1 then applyEventUpdate shrinkUpdate x else x) },
           applyEventUpdate shrinkUpdate eventBig) :=
  (c10_update_event_frame dbBig 1 eventBig shrinkUpdate (by decide)).1

/-- C1: when the current count plus the batch size exceeds the capacity
of the event, both bulk entry points reject the whole batch with the
capacity error carrying the requested size, the limit and the current
usage, and create no attendee; single-record creation applies the same
check with a batch size of one, failing whenever the current count plus
one exceeds the limit. -/
theorem c1_capacity_rejection :
    (∀ (db : DB) (event_id : Nat) (E : Event) (batch : List AttendeeCsv),
      get_event db event_id = some E →
      countAttendees db event_id + batch.length > E.max_attendees →
      bulk_create_attendees db { event_id := event_id, attendees := batch } =
        .error (.capacityExceeded batch.length E.max_attendees
          (countAttendees db event_id)) ∧
      postState db
        (bulk_create_attendees db { event_id := event_id, attendees := batch }) = db) ∧
    (∀ (db : DB) (event_id : Nat) (E : Event) (rows : List AttendeeCsv),
      get_event db event_id = some E →
      countAttendees db event_id + rows.length > E.max_attendees →
      process_csv_upload db event_id rows =
        .error (.capacityExceeded rows.length E.max_attendees
          (countAttendees db event_id)) ∧
      postState db (process_csv_upload db event_id rows) = db) ∧
    (∀ (db : DB) (E : Event) (d : AttendeeCreate),
      get_event db d.event_id = some E →
      countAttendees db d.event_id + 1 > E.max_attendees →
      create_attendee db d = .error (.capacityReached E.max_attendees) ∧
      postState db (create_attendee db d) = db) := by
  refine ⟨?_, ?_, ?_⟩
  · intro db event_id E batch hE hcap
    have h1 : bulk_create_attendees db { event_id := event_id, attendees := batch } =
        .error (.capacityExceeded batch.length E.max_attendees
          (countAttendees db event_id)) := by
      simp only [bulk_create_attendees, hE]
      rw [if_pos hcap]
    exact ⟨h1, by rw [h1]; rfl⟩
  · intro db event_id E rows hE hcap
    have h1 : process_csv_upload db event_id rows =
        .error (.capacityExceeded rows.length E.max_attendees
          (countAttendees db event_id)) := by
      simp only [process_csv_upload, hE]
      rw [if_pos hcap]
    exact ⟨h1, by rw [h1]; rfl⟩
  · intro db E d hE hcap
    have hE2 : db.events.find? (fun e => e.event_id == d.event_id) = some E := hE
    have hid : E.event_id = d.event_id := by
      simpa using List.find?_some hE2
    have hge : countAttendees db E.event_id ≥ E.max_attendees := by
      rw [hid]; omega
    have h1 : create_attendee db d = .error (.capacityReached E.max_attendees) := by
      simp only [create_attendee, hE]
      rw [if_pos hge]
    exact ⟨h1, by rw [h1]; rfl⟩

/-- Closed instance of the capacity theorem: event one is full at one
of one, so a batch of one and a single registration are both refused. -/
theorem c1_capacity_rejection_witness :
    bulk_create_attendees dbSmall { event_id := 1, attendees := [rowA] } =
      .error (.capacityExceeded 1 1 1) ∧
    process_csv_upload dbSmall 1 [rowA] = .error (.capacityExceeded 1 1 1) ∧
    create_attendee dbSmall createReq = .error (.capacityReached 1) := by
  have h := c1_capacity_rejection
  exact ⟨(h.1 dbSmall 1 eventOne [rowA] (by decide) (by decide)).1,
    (h.2.1 dbSmall 1 eventOne [rowA] (by decide) (by decide)).1,
    (h.2.2 dbSmall eventOne createReq (by decide) (by decide)).1⟩

/-- The batch builder yields one row per candidate. -/
theorem buildAttendees_length (rows : List AttendeeCsv) (eid n : Nat) :
    (buildAttendees rows eid n).length = rows.length := by
  induction rows generalizing n with
  | nil => rfl
  | cons r rest ih => simp [buildAttendees, ih]

/-- The batch builder assigns the consecutive primary keys starting at
the autoincrement counter. -/
theorem buildAttendees_ids (rows : List AttendeeCsv) (eid n : Nat) :
    (buildAttendees rows eid n).map (fun a => a.attendee_id) =
      List.range' n rows.length := by
  induction rows generalizing n with
  | nil => rfl
  | cons r rest ih => simp [buildAttendees, List.range'_succ, ih]

/-- Every row built from a batch is an unchecked attendee of the target
event whose personal fields come from one of the candidates, and its
key is at least the starting counter. -/
theorem buildAttendees_mem (rows : List AttendeeCsv) (eid n : Nat) (a : Attendee)
    (ha : a ∈ buildAttendees rows eid n) :
    a.check_in_status = false ∧ a.event_id = eid ∧ n ≤ a.attendee_id ∧
    ∃ r ∈ rows, a.email = r.email ∧ a.first_name = r.first_name ∧
      a.last_name = r.last_name ∧ a.phone_number = r.phone_number := by
  induction rows generalizing n with
  | nil => simp [buildAttendees] at ha
  | cons r rest ih =>
    simp only [buildAttendees, List.mem_cons] at ha
    rcases ha with rfl | ha
    · exact ⟨rfl, rfl, Nat.le_refl _, r, List.mem_cons_self r rest, rfl, rfl, rfl, rfl⟩
    · obtain ⟨h1, h2, h3, rr, hrr, hf⟩ := ih (n + 1) ha
      exact ⟨h1, h2, by omega, rr, List.mem_cons_of_mem r hrr, hf⟩

/-- Every candidate of a batch appears among the built rows with its
personal fields, unchecked and under the target event. -/
theorem buildAttendees_covers (rows : List AttendeeCsv) (eid n : Nat) (r : AttendeeCsv)
    (hr : r ∈ rows) :
    ∃ a ∈ buildAttendees rows eid n, a.email = r.email ∧
      a.first_name = r.first_name ∧ a.last_name = r.last_name ∧
      a.phone_number = r.phone_number ∧ a.check_in_status = false ∧
      a.event_id = eid := by
  induction rows generalizing n with
  | nil => simp at hr
  | cons x rest ih =>
    rcases List.mem_cons.mp hr with rfl | hr2
    · exact ⟨_, List.mem_cons_self _ _, rfl, rfl, rfl, rfl, rfl, rfl⟩
    · obtain ⟨a, ha, hf⟩ := ih (n + 1) hr2
      exact ⟨a, List.mem_cons_of_mem _ ha, hf⟩

/-- C3: a batch passing the three validation rules is persisted whole,
in one commit: the new state appends exactly one unchecked attendee per
candidate, the call reports the count created and the freshly assigned
consecutive identities, and the CSV entry point behaves identically.
The all-or-nothing character is inherent: the sole successor state is
the one carrying the entire batch. -/
theorem c3_bulk_success (db : DB) (event_id : Nat) (E : Event)
    (batch : List AttendeeCsv)
    (hE : get_event db event_id = some E)
    (hcap : countAttendees db event_id + batch.length ≤ E.max_attendees)
    (hdup : duplicateEmailsOf (batch.map (fun r => r.email)) = [])
    (hexist : existingEmailsOf db event_id (batch.map (fun r => r.email)) = []) :
    bulk_create_attendees db { event_id := event_id, attendees := batch } =
      .ok ({ db with
              attendees := db.attendees ++ buildAttendees batch event_id db.next_attendee_id
              next_attendee_id := db.next_attendee_id +
                (buildAttendees batch event_id db.next_attendee_id).length },
           { total_created := (buildAttendees batch event_id db.next_attendee_id).length
             attendee_ids := (buildAttendees batch event_id db.next_attendee_id).map
               (fun a => a.attendee_id) }) ∧
    process_csv_upload db event_id batch =
      bulk_create_attendees db { event_id := event_id, attendees := batch } ∧
    (buildAttendees batch event_id db.next_attendee_id).length = batch.length ∧
    (buildAttendees batch event_id db.next_attendee_id).map (fun a => a.attendee_id) =
      List.range' db.next_attendee_id batch.length ∧
    (∀ a ∈ buildAttendees batch event_id db.next_attendee_id,
      a.check_in_status = false ∧ a.event_id = event_id) ∧
    (∀ r ∈ batch, ∃ a ∈ buildAttendees batch event_id db.next_attendee_id,
      a.email = r.email ∧ a.first_name = r.first_name ∧ a.last_name = r.last_name ∧
      a.phone_number = r.phone_number) := by
  refine ⟨?_, rfl, buildAttendees_length batch event_id db.next_attendee_id,
    buildAttendees_ids batch event_id db.next_attendee_id, ?_, ?_⟩
  · simp only [bulk_create_attendees, hE]
    rw [if_neg (by omega), if_neg (by simp [hdup]), if_neg (by simp [hexist])]
  · intro a ha
    have h := buildAttendees_mem batch event_id db.next_attendee_id a ha
    exact ⟨h.1, h.2.1⟩
  · intro r hr
    obtain ⟨a, ha, hf⟩ := buildAttendees_covers batch event_id db.next_attendee_id r hr
    exact ⟨a, ha, hf.1, hf.2.1, hf.2.2.1, hf.2.2.2.1⟩

/-- Closed instance of the bulk success theorem: two fresh candidates
enter the roomy event as attendees three and four of its state. -/
theorem c3_bulk_success_witness :
    bulk_create_attendees dbBigOne { event_id := 1, attendees := [rowA, rowB] } =
      .ok ({ dbBigOne with
              attendees := dbBigOne.attendees ++ buildAttendees [rowA, rowB] 1 2
              next_attendee_id := 2 + (buildAttendees [rowA, rowB] 1 2).length },
           { total_created := (buildAttendees [rowA, rowB] 1 2).length
             attendee_ids := (buildAttendees [rowA, rowB] 1 2).map
               (fun a => a.attendee_id) }) :=
  (c3_bulk_success dbBigOne 1 eventBig [rowA, rowB] (by decide) (by decide)
    (by decide) (by decide)).1

/-- A list of candidate emails with a repetition yields a non-empty
intra-batch duplicate report. -/
theorem duplicateEmailsOf_ne_nil {emails : List String} (h : ¬ emails.Nodup) :
    duplicateEmailsOf emails ≠ [] := by
  obtain ⟨e, he⟩ : ∃ e, 2 ≤ emails.count e := by
    by_contra hc
    push_neg at hc
    exact h (List.nodup_iff_count_le_one.mpr fun a => by have := hc a; omega)
  have hmem : e ∈ emails := List.count_pos_iff.mp (by omega)
  have : e ∈ duplicateEmailsOf emails := by
    simp only [duplicateEmailsOf, List.mem_filter, List.mem_dedup]
    exact ⟨hmem, by simpa using he⟩
  exact List.ne_nil_of_mem this

/-- A repetition-free list of candidate emails yields an empty
intra-batch duplicate report. -/
theorem duplicateEmailsOf_eq_nil {emails : List String} (h : emails.Nodup) :
    duplicateEmailsOf emails = [] := by
  unfold duplicateEmailsOf
  rw [List.filter_eq_nil_iff]
  intro e _
  have := List.nodup_iff_count_le_one.mp h e
  simpa using by omega

/-- An attendee of the event whose email occurs among the candidates
yields a non-empty cross-batch duplicate report. -/
theorem existingEmailsOf_ne_nil {db : DB} {event_id : Nat} {emails : List String}
    (a : Attendee) (ha : a ∈ db.attendees) (hev : a.event_id = event_id)
    (hmail : a.email ∈ emails) :
    existingEmailsOf db event_id emails ≠ [] := by
  have : a.email ∈ existingEmailsOf db event_id emails := by
    simp only [existingEmailsOf, List.mem_map, List.mem_filter]
    exact ⟨a, ⟨ha, by simp [hev, hmail]⟩, rfl⟩
  exact List.ne_nil_of_mem this

/-- C2 amended: for a batch that passes the capacity check, a repeated
candidate email, or a candidate email already registered for the event,
makes both entry points reject the whole batch with a duplicate-email
error reporting at most five offending addresses, and no attendee is
created.  (As frozen, the claim omits the capacity proviso: capacity is
checked first, so an offending batch that also exceeds capacity is
rejected with the capacity error instead; see the counterexample.) -/
theorem c2_duplicate_rejection (db : DB) (event_id : Nat) (E : Event)
    (batch : List AttendeeCsv)
    (hE : get_event db event_id = some E)
    (hcap : countAttendees db event_id + batch.length ≤ E.max_attendees)
    (hdup : ¬ (batch.map (fun r => r.email)).Nodup ∨
      ∃ a ∈ db.attendees, a.event_id = event_id ∧
        a.email ∈ batch.map (fun r => r.email)) :
    ∃ offenders, offenders ≠ [] ∧ offenders.length ≤ 5 ∧
      (bulk_create_attendees db { event_id := event_id, attendees := batch } =
          .error (.duplicateEmails offenders) ∨
        bulk_create_attendees db { event_id := event_id, attendees := batch } =
          .error (.existingEmails offenders)) ∧
      process_csv_upload db event_id batch =
        bulk_create_attendees db { event_id := event_id, attendees := batch } ∧
      postState db
        (bulk_create_attendees db { event_id := event_id, attendees := batch }) = db := by
  by_cases hnd : (batch.map (fun r => r.email)).Nodup
  · rcases hdup with hdup | ⟨a, ha, hev, hmail⟩
    · exact absurd hnd hdup
    · have hne := existingEmailsOf_ne_nil a ha hev hmail
      have hdnil := duplicateEmailsOf_eq_nil hnd
      have h1 : bulk_create_attendees db { event_id := event_id, attendees := batch } =
          .error (.existingEmails
            ((existingEmailsOf db event_id (batch.map (fun r => r.email))).take 5)) := by
        simp only [bulk_create_attendees, hE]
        rw [if_neg (by omega), if_neg (by simp [hdnil]), if_pos hne]
      refine ⟨_, by simpa using hne, List.length_take_le 5 _, Or.inr h1, rfl,
        by rw [h1]; rfl⟩
  · have hne := duplicateEmailsOf_ne_nil hnd
    have h1 : bulk_create_attendees db { event_id := event_id, attendees := batch } =
        .error (.duplicateEmails
          ((duplicateEmailsOf (batch.map (fun r => r.email))).take 5)) := by
      simp only [bulk_create_attendees, hE]
      rw [if_neg (by omega), if_pos hne]
    refine ⟨_, by simpa using hne, List.length_take_le 5 _, Or.inl h1, rfl,
      by rw [h1]; rfl⟩

/-- Closed instance of the duplicate rejection theorem: a batch of two
identical candidates aimed at the empty roomy event. -/
theorem c2_duplicate_rejection_witness :
    ∃ offenders, offenders ≠ [] ∧ offenders.length ≤ 5 ∧
      (bulk_create_attendees dbBig { event_id := 1, attendees := [rowA, rowA] } =
          .error (.duplicateEmails offenders) ∨
        bulk_create_attendees dbBig { event_id := 1, attendees := [rowA, rowA] } =
          .error (.existingEmails offenders)) ∧
      process_csv_upload dbBig 1 [rowA, rowA] =
        bulk_create_attendees dbBig { event_id := 1, attendees := [rowA, rowA] } ∧
      postState dbBig
        (bulk_create_attendees dbBig { event_id := 1, attendees := [rowA, rowA] }) =
        dbBig :=
  c2_duplicate_rejection dbBig 1 eventBig [rowA, rowA] (by decide) (by decide)
    (Or.inl (by decide))

/-- C2 as frozen is refuted by a duplicate-carrying batch that also
exceeds capacity: the full event of capacity one receives a batch of
two identical candidates and the call fails with the capacity error,
not a duplicate-email error. -/
theorem c2_counterexample :
    ¬ (([rowA, rowA].map (fun r => r.email)).Nodup) ∧
    bulk_create_attendees dbSmall { event_id := 1, attendees := [rowA, rowA] } =
      .error (.capacityExceeded 2 1 1) ∧
    resultDupError
      (bulk_create_attendees dbSmall { event_id := 1, attendees := [rowA, rowA] }) =
      false := by
  decide

/-- C4: the services admit registering one email under two different
events, exactly as the claim requires, and the reached state keeps the
(email, event_id) pair unique; but the source attendee model declares
the email column unique across the whole table, so that same state
violates the uniqueness constraint the store enforces: the admitted
registration cannot commit under the declared schema. -/
theorem c4_global_unique_conflict :
    emailsGloballyUnique dbTwoEvents ∧
    emailEventPairUnique dbTwoEvents ∧
    resultOk (create_attendee dbTwoEvents createSameEmailOtherEvent) = true ∧
    emailEventPairUnique
      (postState dbTwoEvents (create_attendee dbTwoEvents createSameEmailOtherEvent)) ∧
    ¬ emailsGloballyUnique
      (postState dbTwoEvents (create_attendee dbTwoEvents createSameEmailOtherEvent)) := by
  decide

/-- Updating rows through a key-preserving function applied to the rows
matching a key commutes with lookup by that key. -/
theorem find_map_by_id (l : List Attendee) (i : Nat) (f : Attendee → Attendee)
    (hf : ∀ b, (f b).attendee_id = b.attendee_id) (a : Attendee)
    (h : l.find? (fun b => b.attendee_id == i) = some a) :
    (l.map (fun b => if b.attendee_id == i then f b else b)).find?
      (fun b => b.attendee_id == i) = some (f a) := by
  induction l with
  | nil => simp at h
  | cons x xs ih =>
    by_cases hx : x.attendee_id = i
    · rw [List.find?_cons_of_pos _ (by simp [hx])] at h
      injection h with h2
      subst h2
      simp only [List.map_cons, if_pos (by simp [hx] : (x.attendee_id == i) = true)]
      exact List.find?_cons_of_pos _ (by simp [hf, hx])
    · rw [List.find?_cons_of_neg _ (by simp [hx])] at h
      simp only [List.map_cons, if_neg (by simp [hx] : ¬ (x.attendee_id == i) = true)]
      rw [List.find?_cons_of_neg _ (by simp [hx])]
      exact ih h

/-- C5: for an attendee found unchecked, the first check-in succeeds
and flips the flag to true; an immediately repeated check-in of the
same attendee fails with the already-checked-in conflict and leaves the
state unchanged. -/
theorem c5_double_check_in (db : DB) (i : Nat) (a : Attendee)
    (hfind : get_attendee db i = some a)
    (hfalse : a.check_in_status = false) :
    check_in_attendee db i =
      .ok ({ db with attendees := db.attendees.map (fun b =>
              if b.attendee_id == i then { b with check_in_status := true } else b) },
           { a with check_in_status := true }) ∧
    (∀ db1 a1, check_in_attendee db i = .ok (db1, a1) →
      a1.check_in_status = true ∧
      get_attendee db1 i = some { a with check_in_status := true } ∧
      check_in_attendee db1 i = .error (.alreadyCheckedIn i) ∧
      postState db1 (check_in_attendee db1 i) = db1) := by
  have h1 : check_in_attendee db i =
      .ok ({ db with attendees := db.attendees.map (fun b =>
              if b.attendee_id == i then { b with check_in_status := true } else b) },
           { a with check_in_status := true }) := by
    simp only [check_in_attendee, hfind, hfalse]
    rfl
  refine ⟨h1, ?_⟩
  intro db1 a1 hok
  rw [h1] at hok
  injection hok with hok2
  injection hok2 with hdbe hae
  subst hdbe
  subst hae
  have hfind1 : get_attendee { db with attendees := db.attendees.map (fun b =>
      if b.attendee_id == i then { b with check_in_status := true } else b) } i =
      some { a with check_in_status := true } :=
    find_map_by_id db.attendees i
      (fun b => { b with check_in_status := true }) (fun _ => rfl) a hfind
  have h2 : check_in_attendee { db with attendees := db.attendees.map (fun b =>
      if b.attendee_id == i then { b with check_in_status := true } else b) } i =
      .error (.alreadyCheckedIn i) := by
    simp only [check_in_attendee, hfind1]
    rfl
  exact ⟨rfl, hfind1, h2, by rw [h2]; rfl⟩

/-- Closed instance of the double check-in theorem: attendee one of the
roomy event is checked in twice in sequence. -/
theorem c5_double_check_in_witness :
    check_in_attendee dbBigOne 1 =
      .ok ({ dbBigOne with attendees := dbBigOne.attendees.map (fun b =>
              if b.attendee_id == 1 then { b with check_in_status := true } else b) },
           { attendeeOne with check_in_status := true }) :=
  (c5_double_check_in dbBigOne 1 attendeeOne (by decide) (by decide)).1

/-- C6 as frozen is refuted by an input list carrying a duplicate id:
for the list [1, 1] over a state in which attendee one exists unchecked,
the three buckets sum to one while the input has length two, because
the single matching row is classified once while the total counts the
repetition. -/
theorem c6_counterexample :
    bulkCheckInSum (bulk_check_in dbBigOne 1 [1, 1]) = some (1, 2) ∧ (1 : Nat) ≠ 2 := by
  decide

/-- Splitting a list by a Boolean predicate preserves its length. -/
theorem length_filter_split {α : Type} (l : List α) (f : α → Bool) :
    (l.filter f).length + (l.filter (fun x => !f x)).length = l.length := by
  induction l with
  | nil => rfl
  | cons x xs ih => cases hx : f x <;> simp [hx] <;> omega

/-- Explicit success form of bulk check-in when the event exists. -/
theorem bulk_check_in_eq (db : DB) (event_id : Nat) (E : Event) (ids : List Nat)
    (hE : get_event db event_id = some E) :
    bulk_check_in db event_id ids =
      .ok ({ db with attendees := db.attendees.map (fun a =>
              if a.event_id == event_id && ids.contains a.attendee_id &&
                  !a.check_in_status then { a with check_in_status := true } else a) },
           { total := ids.length
             found := (db.attendees.filter (fun a =>
               a.event_id == event_id && ids.contains a.attendee_id)).length
             missing := ids.filter (fun i =>
               !((db.attendees.filter (fun a =>
                 a.event_id == event_id && ids.contains a.attendee_id)).map
                   (fun a => a.attendee_id)).contains i)
             already_checked_in := ((db.attendees.filter (fun a =>
               a.event_id == event_id && ids.contains a.attendee_id)).filter
                 (fun a => a.check_in_status)).map (fun a => a.attendee_id)
             newly_checked_in := ((db.attendees.filter (fun a =>
               a.event_id == event_id && ids.contains a.attendee_id)).filter
                 (fun a => !a.check_in_status)).map (fun a => a.attendee_id) }) := by
  simp only [bulk_check_in, hE]

/-- C6 amended: over an existing event and a list of distinct attendee
ids, bulk check-in never rejects the batch; it classifies each id into
exactly one of the buckets missing, already checked in, newly checked
in, flips the flag of every newly checked-in row, and the three bucket
sizes sum to the input length.  (As frozen, the claim admits arbitrary
id lists; a repeated id breaks the sum, see the counterexample: a found
id is classified once while the total counts repetitions.) -/
theorem c6_bulk_check_in_partition (db : DB) (event_id : Nat) (E : Event)
    (ids : List Nat)
    (hE : get_event db event_id = some E)
    (hnodup : ids.Nodup)
    (hpk : (db.attendees.map (fun a => a.attendee_id)).Nodup) :
    ∃ db2 r, bulk_check_in db event_id ids = .ok (db2, r) ∧
      r.total = ids.length ∧
      r.newly_checked_in.length + r.already_checked_in.length +
        r.missing.length = ids.length ∧
      (∀ i ∈ ids, i ∈ r.missing ∨ i ∈ r.already_checked_in ∨
        i ∈ r.newly_checked_in) ∧
      (∀ i ∈ r.missing, i ∉ r.already_checked_in ∧ i ∉ r.newly_checked_in) ∧
      (∀ i ∈ r.already_checked_in, i ∉ r.newly_checked_in) ∧
      (∀ a2 ∈ db2.attendees, a2.attendee_id ∈ r.newly_checked_in →
        a2.check_in_status = true) := by
  have hq : ∀ a : Attendee,
      ((fun a => a.event_id == event_id && ids.contains a.attendee_id) a = true) ↔
        (a.event_id = event_id ∧ a.attendee_id ∈ ids) := by
    intro a
    simp
  refine ⟨_, _, bulk_check_in_eq db event_id E ids hE, rfl, ?_, ?_, ?_, ?_, ?_⟩
  all_goals
    set F := db.attendees.filter
      (fun a => a.event_id == event_id && ids.contains a.attendee_id) with hFdef
  all_goals
    set found := F.map (fun a => a.attendee_id) with hfounddef
  case _ =>
    -- bucket sizes sum to the input length
    have hsub : ∀ x ∈ found, x ∈ ids := by
      intro x hx
      obtain ⟨a, haF, rfl⟩ := List.mem_map.mp hx
      exact ((hq a).mp (List.mem_filter.mp haF).2).2
    have hfound_nd : found.Nodup :=
      List.Nodup.sublist (List.Sublist.map _ (List.filter_sublist _)) hpk
    have hperm : (ids.filter (fun i => found.contains i)).Perm found := by
      rw [List.perm_ext_iff_of_nodup (hnodup.filter _) hfound_nd]
      intro x
      constructor
      · intro hx
        have := (List.mem_filter.mp hx).2
        simpa using this
      · intro hx
        exact List.mem_filter.mpr ⟨hsub x hx, by simpa using hx⟩
    have h2 : (F.filter (fun a => a.check_in_status)).length +
        (F.filter (fun a => !a.check_in_status)).length = F.length :=
      length_filter_split F (fun a => a.check_in_status)
    have h3 : (ids.filter (fun i => found.contains i)).length +
        (ids.filter (fun i => !found.contains i)).length = ids.length :=
      length_filter_split ids (fun i => found.contains i)
    have h4 : (ids.filter (fun i => found.contains i)).length = F.length := by
      have := hperm.length_eq
      simpa [hfounddef] using this
    simp only [List.length_map]
    omega
  case _ =>
    -- every input id lands in one of the three buckets
    intro i hi
    by_cases hmem : i ∈ found
    · obtain ⟨a, haF, hai⟩ := List.mem_map.mp hmem
      cases hc : a.check_in_status
      · exact Or.inr (Or.inr (List.mem_map.mpr
          ⟨a, List.mem_filter.mpr ⟨haF, by simp [hc]⟩, hai⟩))
      · exact Or.inr (Or.inl (List.mem_map.mpr
          ⟨a, List.mem_filter.mpr ⟨haF, by simp [hc]⟩, hai⟩))
    · exact Or.inl (List.mem_filter.mpr ⟨hi, by simpa using hmem⟩)
  case _ =>
    -- a missing id is in neither of the found buckets
    intro i himiss
    have hnot : i ∉ found := by
      have := (List.mem_filter.mp himiss).2
      simpa using this
    constructor
    · intro hal
      obtain ⟨a, haF, hai⟩ := List.mem_map.mp hal
      exact hnot (List.mem_map.mpr ⟨a, List.mem_of_mem_filter haF, hai⟩)
    · intro hnew
      obtain ⟨a, haF, hai⟩ := List.mem_map.mp hnew
      exact hnot (List.mem_map.mpr ⟨a, List.mem_of_mem_filter haF, hai⟩)
  case _ =>
    -- the two found buckets are disjoint
    intro i hal hnew
    have hfound_nd : found.Nodup :=
      List.Nodup.sublist (List.Sublist.map _ (List.filter_sublist _)) hpk
    obtain ⟨a, haf, hai⟩ := List.mem_map.mp hal
    obtain ⟨b, hbf, hbi⟩ := List.mem_map.mp hnew
    have ha2 := (List.mem_filter.mp haf).2
    have hb2 := (List.mem_filter.mp hbf).2
    have hab : a = b :=
      List.inj_on_of_nodup_map hfound_nd (List.mem_of_mem_filter haf)
        (List.mem_of_mem_filter hbf) (by rw [hai, hbi])
    rw [hab] at ha2
    simp_all
  case _ =>
    -- newly checked-in rows carry the flag in the successor state
    intro a2 ha2 hnew
    simp only at ha2 hnew
    obtain ⟨a, ha, rfl⟩ := List.mem_map.mp ha2
    have hid : (if a.event_id == event_id && ids.contains a.attendee_id &&
        !a.check_in_status then { a with check_in_status := true } else a).attendee_id =
        a.attendee_id := by
      split <;> rfl
    rw [hid] at hnew
    obtain ⟨b, hbf, hbi⟩ := List.mem_map.mp hnew
    have hbF := List.mem_of_mem_filter hbf
    have hbdb : b ∈ db.attendees := List.mem_of_mem_filter hbF
    have hba : b = a :=
      List.inj_on_of_nodup_map hpk hbdb ha hbi
    have hbcheck : b.check_in_status = false := by
      have := (List.mem_filter.mp hbf).2
      simpa using this
    have hbcond := (List.mem_filter.mp hbF).2
    rw [hba] at hbcheck hbcond
    simp [hbcond, hbcheck, (hq a).mp hbcond]

/-- Closed instance of the bulk check-in theorem: the distinct list
holding the id of the unchecked attendee one and an absent id. -/
theorem c6_bulk_check_in_partition_witness :
    ∃ db2 r, bulk_check_in dbBigOne 1 [1, 99] = .ok (db2, r) ∧
      r.total = [1, 99].length ∧
      r.newly_checked_in.length + r.already_checked_in.length +
        r.missing.length = [1, 99].length ∧
      (∀ i ∈ [1, 99], i ∈ r.missing ∨ i ∈ r.already_checked_in ∨
        i ∈ r.newly_checked_in) ∧
      (∀ i ∈ r.missing, i ∉ r.already_checked_in ∧ i ∉ r.newly_checked_in) ∧
      (∀ i ∈ r.already_checked_in, i ∉ r.newly_checked_in) ∧
      (∀ a2 ∈ db2.attendees, a2.attendee_id ∈ r.newly_checked_in →
        a2.check_in_status = true) :=
  c6_bulk_check_in_partition dbBigOne 1 eventBig [1, 99] (by decide) (by decide)
    (by decide)

/-- C7 as frozen is refuted by the generic attendee update: the update
schema accepts check_in_status, and the service applies every provided
field, so an explicit update resets a checked-in attendee to unchecked. -/
theorem c7_counterexample :
    attendeeChecked ∈ dbChecked.attendees ∧
    attendeeChecked.check_in_status = true ∧
    update_attendee dbChecked 1 uncheckUpdate =
      .ok ({ dbChecked with
              attendees := [{ attendeeChecked with check_in_status := false }] },
           { attendeeChecked with check_in_status := false }) ∧
    ¬ checkInMono dbChecked
      (postState dbChecked (update_attendee dbChecked 1 uncheckUpdate)) := by
  refine ⟨by decide, rfl, by decide, ?_⟩
  intro h
  have := h attendeeChecked (by decide) rfl
    { attendeeChecked with check_in_status := false } (by decide) rfl
  simp at this

/-- Two states with identical attendee tables and distinct primary keys
keep every checked-in row checked in. -/
theorem checkInMono_self (db : DB)
    (hpk : (db.attendees.map (fun a => a.attendee_id)).Nodup) :
    checkInMono db db := by
  intro a ha hat a2 ha2 hid
  have h := List.inj_on_of_nodup_map hpk ha2 ha hid
  rw [h]
  exact hat

/-- Appending rows with fresh primary keys keeps every checked-in row
checked in. -/
theorem checkInMono_of_append (db db2 : DB) (l2 : List Attendee)
    (hpk : (db.attendees.map (fun a => a.attendee_id)).Nodup)
    (hfresh : ∀ a ∈ db.attendees, a.attendee_id < db.next_attendee_id)
    (h2 : db2.attendees = db.attendees ++ l2)
    (hl2 : ∀ b ∈ l2, db.next_attendee_id ≤ b.attendee_id) :
    checkInMono db db2 := by
  intro a ha hat a2 ha2 hid
  rw [h2] at ha2
  rcases List.mem_append.mp ha2 with h | h
  · have he := List.inj_on_of_nodup_map hpk h ha hid
    rw [he]
    exact hat
  · have h1 := hl2 a2 h
    have h3 := hfresh a ha
    exact absurd hid (by omega)

/-- Mapping a key-preserving, flag-monotone function over the table
keeps every checked-in row checked in. -/
theorem checkInMono_of_map (db db2 : DB)
    (hpk : (db.attendees.map (fun a => a.attendee_id)).Nodup)
    (f : Attendee → Attendee) (hid : ∀ b, (f b).attendee_id = b.attendee_id)
    (hkeep : ∀ b, b.check_in_status = true → (f b).check_in_status = true)
    (h2 : db2.attendees = db.attendees.map f) :
    checkInMono db db2 := by
  intro a ha hat a2 ha2 hid2
  rw [h2] at ha2
  obtain ⟨b, hb, rfl⟩ := List.mem_map.mp ha2
  have hba : b = a := List.inj_on_of_nodup_map hpk hb ha (by rw [← hid b]; exact hid2)
  rw [hba]
  exact hkeep a (hba ▸ hat)

/-- Monotonicity transfers through the rollback-or-commit reading of an
outcome: errors leave the state unchanged, successes are covered by the
hypothesis. -/
theorem checkInMono_postState (db : DB)
    (hpk : (db.attendees.map (fun a => a.attendee_id)).Nodup)
    (r : Except SvcError (DB × α))
    (h : ∀ db2 x, r = .ok (db2, x) → checkInMono db db2) :
    checkInMono db (postState db r) := by
  cases r with
  | error e => exact checkInMono_self db hpk
  | ok p =>
    cases p with
    | mk db2 x => exact h db2 x rfl

/-- Success form of single-attendee registration: the new state appends
the one freshly keyed row. -/
theorem create_attendee_ok (db : DB) (d : AttendeeCreate) (db2 : DB) (x : Attendee)
    (h : create_attendee db d = .ok (db2, x)) :
    db2.attendees = db.attendees ++ [x] ∧ x.attendee_id = db.next_attendee_id := by
  simp only [create_attendee] at h
  repeat' split at h
  all_goals cases h
  exact ⟨rfl, rfl⟩

/-- Success form of the JSON bulk registration: the new state appends
the built rows, all freshly keyed. -/
theorem bulk_create_attendees_ok (db : DB) (bd : AttendeeBulkCreate) (db2 : DB)
    (x : BulkCreateResult) (h : bulk_create_attendees db bd = .ok (db2, x)) :
    db2.attendees = db.attendees ++
      buildAttendees bd.attendees bd.event_id db.next_attendee_id := by
  simp only [bulk_create_attendees] at h
  repeat' split at h
  all_goals cases h
  rfl

/-- Success form of single check-in: the new state is the image of the
flag-setting update keyed on the request id. -/
theorem check_in_attendee_ok (db : DB) (i : Nat) (db2 : DB) (x : Attendee)
    (h : check_in_attendee db i = .ok (db2, x)) :
    db2.attendees = db.attendees.map (fun b =>
      if b.attendee_id == i then { b with check_in_status := true } else b) := by
  simp only [check_in_attendee] at h
  repeat' split at h
  all_goals cases h
  rfl

/-- Success form of bulk check-in: the new state is the image of the
conditional flag-setting update. -/
theorem bulk_check_in_ok (db : DB) (event_id : Nat) (ids : List Nat) (db2 : DB)
    (x : BulkCheckInResult) (h : bulk_check_in db event_id ids = .ok (db2, x)) :
    db2.attendees = db.attendees.map (fun a =>
      if a.event_id == event_id && ids.contains a.attendee_id &&
          !a.check_in_status then { a with check_in_status := true } else a) := by
  simp only [bulk_check_in] at h
  repeat' split at h
  all_goals cases h
  rfl

/-- Success form of the attendee update: the new state is the image of
the sparse merge keyed on the request id. -/
theorem update_attendee_ok (db : DB) (i : Nat) (u : AttendeeUpdate) (db2 : DB)
    (x : Attendee) (h : update_attendee db i u = .ok (db2, x)) :
    db2.attendees = db.attendees.map (fun b =>
      if b.attendee_id == i then applyAttendeeUpdate u b else b) := by
  simp only [update_attendee] at h
  repeat' split at h
  all_goals cases h
  all_goals rfl

/-- Success form of the event update: the attendee table is untouched. -/
theorem update_event_ok (db : DB) (event_id : Nat) (u : EventUpdate) (db2 : DB)
    (x : Event) (h : update_event db event_id u = .ok (db2, x)) :
    db2.attendees = db.attendees := by
  simp only [update_event] at h
  repeat' split at h
  all_goals cases h
  rfl

/-- The CSV entry point coincides with the JSON entry point after
parsing. -/
theorem process_csv_eq_bulk (db : DB) (event_id : Nat) (rows : List AttendeeCsv) :
    process_csv_upload db event_id rows =
      bulk_create_attendees db { event_id := event_id, attendees := rows } := rfl

/-- C7 amended: over a table with distinct primary keys and a fresh
autoincrement counter, every registration, check-in, event update and
sweep operation keeps a checked-in attendee checked in, and so does an
attendee update whose request leaves check_in_status out; only an
attendee update explicitly carrying check_in_status can reset the flag,
as the counterexample shows. -/
theorem c7_check_in_one_way (db : DB)
    (hpk : (db.attendees.map (fun a => a.attendee_id)).Nodup)
    (hfresh : ∀ a ∈ db.attendees, a.attendee_id < db.next_attendee_id) :
    (∀ d, checkInMono db (postState db (create_attendee db d))) ∧
    (∀ bd, checkInMono db (postState db (bulk_create_attendees db bd))) ∧
    (∀ event_id rows,
      checkInMono db (postState db (process_csv_upload db event_id rows))) ∧
    (∀ i, checkInMono db (postState db (check_in_attendee db i))) ∧
    (∀ event_id ids,
      checkInMono db (postState db (bulk_check_in db event_id ids))) ∧
    (∀ i u, u.check_in_status = none →
      checkInMono db (postState db (update_attendee db i u))) ∧
    (∀ event_id u, checkInMono db (postState db (update_event db event_id u))) ∧
    (∀ now2, checkInMono db (update_event_statuses db now2).1) := by
  refine ⟨?_, ?_, ?_, ?_, ?_, ?_, ?_, ?_⟩
  · intro d
    refine checkInMono_postState db hpk _ ?_
    intro db2 x hok
    obtain ⟨h2, hid⟩ := create_attendee_ok db d db2 x hok
    refine checkInMono_of_append db db2 [x] hpk hfresh h2 ?_
    intro b hb
    have hbx : b = x := List.mem_singleton.mp hb
    rw [hbx, hid]
  · intro bd
    refine checkInMono_postState db hpk _ ?_
    intro db2 x hok
    have h2 := bulk_create_attendees_ok db bd db2 x hok
    refine checkInMono_of_append db db2 _ hpk hfresh h2 ?_
    intro b hb
    exact (buildAttendees_mem bd.attendees bd.event_id db.next_attendee_id b hb).2.2.1
  · intro event_id rows
    rw [process_csv_eq_bulk]
    refine checkInMono_postState db hpk _ ?_
    intro db2 x hok
    have h2 := bulk_create_attendees_ok db _ db2 x hok
    refine checkInMono_of_append db db2 _ hpk hfresh h2 ?_
    intro b hb
    exact (buildAttendees_mem rows event_id db.next_attendee_id b hb).2.2.1
  · intro i
    refine checkInMono_postState db hpk _ ?_
    intro db2 x hok
    refine checkInMono_of_map db db2 hpk _ ?_ ?_ (check_in_attendee_ok db i db2 x hok)
    · intro b
      split <;> rfl
    · intro b hb
      split <;> simp [hb]
  · intro event_id ids
    refine checkInMono_postState db hpk _ ?_
    intro db2 x hok
    refine checkInMono_of_map db db2 hpk _ ?_ ?_
      (bulk_check_in_ok db event_id ids db2 x hok)
    · intro b
      split <;> rfl
    · intro b hb
      split <;> simp [hb]
  · intro i u hu
    refine checkInMono_postState db hpk _ ?_
    intro db2 x hok
    refine checkInMono_of_map db db2 hpk _ ?_ ?_ (update_attendee_ok db i u db2 x hok)
    · intro b
      split <;> rfl
    · intro b hb
      split
      · simp [applyAttendeeUpdate, hu, hb]
      · exact hb
  · intro event_id u
    refine checkInMono_postState db hpk _ ?_
    intro db2 x hok
    have h2 := update_event_ok db event_id u db2 x hok
    intro a ha hat a2 ha2 hid
    rw [h2] at ha2
    have he := List.inj_on_of_nodup_map hpk ha2 ha hid
    rw [he]
    exact hat
  · intro now2
    exact checkInMono_self db hpk

/-- Closed instance of the one-way theorem: after checking in attendee
one of the roomy event, a further single check-in call leaves the row
checked in in the resulting state. -/
theorem c7_check_in_one_way_witness :
    checkInMono dbChecked (postState dbChecked (check_in_attendee dbChecked 1)) ∧
    checkInMono dbChecked
      (postState dbChecked (update_attendee dbChecked 1
        { first_name := some "Cy2", last_name := none, email := none,
          phone_number := none, check_in_status := none })) :=
  ⟨(c7_check_in_one_way dbChecked (by decide) (by decide)).2.2.2.1 1,
   (c7_check_in_one_way dbChecked (by decide) (by decide)).2.2.2.2.2.1 1
     { first_name := some "Cy2", last_name := none, email := none,
       phone_number := none, check_in_status := none } rfl⟩

end EventApi
